import Mathlib

/-!
Verification of the ledger core of the banking-app-v3 repository.

The definitions below are a shallow embedding of the Python source:
monetary values (SQL Numeric(10,2), Python Decimal) are exact rationals,
database tables are lists of records, and each route handler that the
claims mention becomes a pure state-passing function.  Display-only
behaviour (flash messages, templates, pagination) is not modelled.
Where the source converts exact decimals through Python binary floats,
a separate model of binary64 rounding is used (roundDouble below).
-/

namespace Bank

/-- Calendar date (Python datetime.date; no time component). -/
structure Date where
  year : Nat
  month : Nat
  day : Nat
deriving DecidableEq

/-- Row of the sources table (class Source in app.py and models.py). -/
structure Source where
  id : Nat
  name : String
  type : String
  is_active : Bool
deriving DecidableEq

/-- Row of the transactions table, restricted to the fields the claims
touch (class Transaction in app.py and models.py).  date and description
are NOT NULL columns, but the ORM only enforces that at commit time, so
they are optional here and the commit model checks them. -/
structure Transaction where
  external_id : Option String := none
  date : Option Date := none
  description : Option String := none
  amount : Rat
  category_id : Option Nat := none
  account_id : Option Nat := none
  source_id : Option Nat := none
  source_type : Option String := none
deriving DecidableEq

/-- Row of the accounts table (class Account in app.py and models.py). -/
structure Account where
  id : Nat
  user_id : Nat
  account_name : String
  account_type : String
  opening_balance : Rat
  current_balance : Rat
deriving DecidableEq

/-- The persistent store: users are kept as their ids only, since the
claims never read any other user field. -/
structure BankState where
  users : List Nat
  accounts : List Account
  transactions : List Transaction
  sources : List Source
deriving DecidableEq

/-- Sum of the amounts of the transactions linked to the given account
id: the SQL aggregate in Account.get_live_balance (app.py lines
165-174). -/
def sumAmounts (txs : List Transaction) (aid : Nat) : Rat :=
  ((txs.filter (fun t => t.account_id = some aid)).map (fun t => t.amount)).sum

/-- Account.get_live_balance (app.py lines 165-174, models.py lines
98-105): opening balance plus the sum of the linked transaction
amounts.  This is the exact-decimal value of that expression; the float
coercion the source applies on top of it is modelled separately by
get_live_balance_py. -/
def get_live_balance (st : BankState) (a : Account) : Rat :=
  a.opening_balance + sumAmounts st.transactions a.id

/-- Account.query.get: first account row with the given id. -/
def findAccount (st : BankState) (aid : Nat) : Option Account :=
  st.accounts.find? (fun a => a.id = aid)

/-- In-place ORM update of the account rows with the given id. -/
def setAccount (l : List Account) (aid : Nat) (f : Account → Account) : List Account :=
  l.map (fun b => if b.id = aid then f b else b)

/-- Modelled from the spec: Account.calculate_current_balance is called
throughout the blueprints (accounts.py, open_banking.py) but its
definition is not among the reviewed source files.  Per the spec, the
stored current_balance is only a cache that callers refresh
opportunistically to the live balance, so the refresh writes
get_live_balance into current_balance. -/
def calculate_current_balance (st : BankState) (aid : Nat) : BankState :=
  ⟨st.users,
   setAccount st.accounts aid (fun a => { a with current_balance := get_live_balance st a }),
   st.transactions, st.sources⟩

/-- The look-up-else-create Source pattern shared by accounts.add,
accounts.transfer, accounts.edit and open_banking (for example
accounts.py lines 318-325): query the first source of the given type,
create one with the given display name when none exists. -/
def getOrCreateSource (st : BankState) (ty nm : String) : Source × BankState :=
  match st.sources.find? (fun s => s.type = ty) with
  | some s => (s, st)
  | none =>
    let s : Source := ⟨st.sources.length + 1, nm, ty, true⟩
    (s, { st with sources := st.sources ++ [s] })

/-- get_or_create_open_banking_source (open_banking.py lines 420-429). -/
def get_or_create_open_banking_source (st : BankState) : Source × BankState :=
  getOrCreateSource st "open_banking" "Open Banking"

theorem getOrCreateSource_transactions (st : BankState) (ty nm : String) :
    (getOrCreateSource st ty nm).2.transactions = st.transactions := by
  unfold getOrCreateSource
  cases st.sources.find? (fun s => s.type = ty) <;> rfl

theorem getOrCreateSource_accounts (st : BankState) (ty nm : String) :
    (getOrCreateSource st ty nm).2.accounts = st.accounts := by
  unfold getOrCreateSource
  cases st.sources.find? (fun s => s.type = ty) <;> rfl

theorem find?_append_none {α : Type} (p : α → Bool) (l1 l2 : List α)
    (h : l1.find? p = none) : (l1 ++ l2).find? p = l2.find? p := by
  induction l1 with
  | nil => rfl
  | cons a rest ih =>
    rw [List.find?_cons] at h
    cases hp : p a with
    | true => rw [hp] at h; exact absurd h (by simp)
    | false =>
      rw [hp] at h
      rw [List.cons_append, List.find?_cons, hp]
      exact ih h

/-- Claim C9: for every source type tag, two sequential getOrCreateSource
calls return the same Source row (hence the same identifier); the first
call appends a fresh row exactly when no row of that type exists, and
the second call changes nothing, so repeated calls never create a
duplicate row per type. -/
theorem source_get_or_create_idempotent (st : BankState) (ty nm : String) :
    (getOrCreateSource (getOrCreateSource st ty nm).2 ty nm).1 = (getOrCreateSource st ty nm).1
    ∧ (getOrCreateSource (getOrCreateSource st ty nm).2 ty nm).2 = (getOrCreateSource st ty nm).2
    ∧ (getOrCreateSource st ty nm).2.sources =
        (if (st.sources.filter (fun s => s.type = ty)).length = 0
         then st.sources ++ [⟨st.sources.length + 1, nm, ty, true⟩]
         else st.sources) := by
  cases h : st.sources.find? (fun s => s.type = ty) with
  | some s =>
    have hmem : s ∈ st.sources := List.mem_of_find?_eq_some h
    have hprop : s.type = ty := by
      have := List.find?_some h
      simpa using this
    have hfilter : (st.sources.filter (fun s => s.type = ty)).length ≠ 0 := by
      have : s ∈ st.sources.filter (fun s => s.type = ty) := by
        rw [List.mem_filter]
        exact ⟨hmem, by simpa using hprop⟩
      intro hlen
      rw [List.length_eq_zero] at hlen
      rw [hlen] at this
      exact absurd this (List.not_mem_nil s)
    refine ⟨?_, ?_, ?_⟩
    · simp [getOrCreateSource, h]
    · simp [getOrCreateSource, h]
    · simp [getOrCreateSource, h, hfilter]
  | none =>
    have hall : ∀ x ∈ st.sources, ¬ (x.type = ty) := by
      intro x hx
      have := List.find?_eq_none.mp h x hx
      simpa using this
    have hfilter : st.sources.filter (fun s => s.type = ty) = [] := by
      rw [List.filter_eq_nil_iff]
      intro a ha
      simpa using hall a ha
    have hsecond :
        (st.sources ++ [(⟨st.sources.length + 1, nm, ty, true⟩ : Source)]).find?
          (fun s => s.type = ty) = some ⟨st.sources.length + 1, nm, ty, true⟩ := by
      rw [find?_append_none _ _ _ h]
      simp [List.find?]
    refine ⟨?_, ?_, ?_⟩
    · simp [getOrCreateSource, h, hsecond]
    · simp [getOrCreateSource, h, hsecond]
    · simp [getOrCreateSource, h, hfilter]

theorem find?_setAccount (l : List Account) (aid : Nat) (f : Account → Account)
    (hf : ∀ b, (f b).id = b.id) :
    (setAccount l aid f).find? (fun b => b.id = aid)
      = (l.find? (fun b => b.id = aid)).map f := by
  induction l with
  | nil => rfl
  | cons b rest ih =>
    by_cases hb : b.id = aid
    · have hfb : (f b).id = aid := by rw [hf]; exact hb
      simp only [setAccount, List.map_cons, if_pos hb]
      rw [List.find?_cons_of_pos _ (by simpa using hfb),
        List.find?_cons_of_pos _ (by simpa using hb)]
      rfl
    · simp only [setAccount, List.map_cons, if_neg hb]
      rw [List.find?_cons_of_neg _ (by simpa using hb),
        List.find?_cons_of_neg _ (by simpa using hb)]
      exact ih

theorem findAccount_calculate (st : BankState) (aid : Nat) (a : Account)
    (h : findAccount st aid = some a) :
    findAccount (calculate_current_balance st aid) aid
      = some { a with current_balance := get_live_balance st a } := by
  have hmap := find?_setAccount st.accounts aid
    (fun a => { a with current_balance := get_live_balance st a }) (fun b => rfl)
  unfold findAccount at h ⊢
  unfold calculate_current_balance
  dsimp only
  rw [hmap, h]
  rfl

theorem calculate_transactions (st : BankState) (aid : Nat) :
    (calculate_current_balance st aid).transactions = st.transactions := rfl

theorem sumAmounts_append (l1 l2 : List Transaction) (aid : Nat) :
    sumAmounts (l1 ++ l2) aid = sumAmounts l1 aid + sumAmounts l2 aid := by
  unfold sumAmounts
  rw [List.filter_append, List.map_append, List.sum_append]

theorem sumAmounts_single (t : Transaction) (aid : Nat) :
    sumAmounts [t] aid = if t.account_id = some aid then t.amount else 0 := by
  unfold sumAmounts
  by_cases h : t.account_id = some aid
  · simp [List.filter, h]
  · simp [List.filter, h]

theorem findAccount_id (st : BankState) (aid : Nat) (a : Account)
    (h : findAccount st aid = some a) : a.id = aid := by
  have := List.find?_some h
  simpa using this

theorem get_live_balance_nil (st : BankState) (a : Account)
    (h : st.transactions = []) : get_live_balance st a = a.opening_balance := by
  have h0 : sumAmounts [] a.id = 0 := rfl
  unfold get_live_balance
  rw [h, h0, add_zero]

/-- Exact fraction on raw integers (no normalisation), used to model
IEEE-754 binary64 computation executably; the denominator is kept
positive by every construction below. -/
structure Fq where
  num : Int
  den : Int
deriving DecidableEq

/-- The rational value of a raw fraction. -/
def Fq.toRat (a : Fq) : Rat := (a.num : Rat) / (a.den : Rat)

/-- The raw fraction of a rational value. -/
def toFq (q : Rat) : Fq := ⟨q.num, (q.den : Int)⟩

/-- Exact equality of two raw fractions, by cross-multiplication. -/
def Fq.eqv (a b : Fq) : Prop := a.num * b.den = b.num * a.den

instance (a b : Fq) : Decidable (Fq.eqv a b) := by
  unfold Fq.eqv
  infer_instance

/-- Exact strict order of two raw fractions with positive denominators,
by cross-multiplication: the comparison of two binary64 values. -/
def Fq.blt (a b : Fq) : Bool := decide (a.num * b.den < b.num * a.den)

/-- Exact addition of raw fractions. -/
def Fq.add (a b : Fq) : Fq := ⟨a.num * b.den + b.num * a.den, a.den * b.den⟩

/-- Exact multiplication by an integer power of two. -/
def mulPow2F (q : Fq) (k : Int) : Fq :=
  if 0 ≤ k then ⟨q.num * 2 ^ k.toNat, q.den⟩ else ⟨q.num, q.den * 2 ^ (-k).toNat⟩

/-- Floor of the base-two logarithm of a natural number, by fuel. -/
def log2fuelN : Nat → Nat → Nat
  | 0, _ => 0
  | fuel + 1, n => if n ≤ 1 then 0 else log2fuelN fuel (n / 2) + 1

/-- Number of doublings taking a positive fraction below one up to at
least one, by fuel. -/
def negExpFuelF : Nat → Fq → Nat
  | 0, _ => 0
  | fuel + 1, a => if a.den ≤ a.num then 0 else negExpFuelF fuel ⟨2 * a.num, a.den⟩ + 1

/-- Binary exponent of a positive fraction: the unique e with 2 to the
e at most the value, which is below 2 to the e plus one. -/
def qexp2F (a : Fq) : Int :=
  if a.den ≤ a.num then ((log2fuelN (a.num.fdiv a.den).toNat (a.num.fdiv a.den).toNat : Nat) : Int)
  else -((negExpFuelF 1200 a : Nat) : Int)

/-- Round a raw fraction with positive denominator to the nearest
integer, ties to even: the IEEE-754 significand rounding. -/
def rndHalfEvenF (q : Fq) : Int :=
  let f := q.num.fdiv q.den
  let r2 := 2 * (q.num - f * q.den)
  if r2 < q.den then f
  else if q.den < r2 then f + 1
  else if f % 2 = 0 then f else f + 1

/-- Round an exact value to the nearest IEEE-754 binary64 value (round
to nearest, ties to even; normal range, which covers every monetary
value in scope): the value Python float() returns on a Decimal. -/
def roundDoubleF (q : Fq) : Fq :=
  if q.num = 0 then ⟨0, 1⟩
  else
    let a : Fq := ⟨|q.num|, q.den⟩
    let e := qexp2F a
    let m := rndHalfEvenF (mulPow2F a (52 - e))
    let d := mulPow2F ⟨m, 1⟩ (e - 52)
    if q.num < 0 then ⟨-d.num, d.den⟩ else d

/-- Python float addition: exact sum, rounded to binary64. -/
def fladdF (x y : Fq) : Fq := roundDoubleF (Fq.add x y)

/-- The funds comparison exactly as the source computes it (accounts.py
line 312): float(current_balance) + overdraft_limit < float(amount), in
binary64 — each Decimal is rounded to the nearest double, the overdraft
integer converts exactly, the addition rounds once more and the final
comparison is exact on the two doubles.  True means the transfer is
rejected as insufficient. -/
def transferCheckFails (cur od amt : Rat) : Bool :=
  Fq.blt (fladdF (roundDoubleF (toFq cur)) (roundDoubleF (toFq od)))
    (roundDoubleF (toFq amt))

/-- Errors of the accounts.transfer POST handler.  fromNotFound is the
get_or_404 on the source account, destNotFound the missing destination
account check, nonPositiveAmount the flash for amount at most zero, and
insufficientFunds the failed funds check.  Every error path redirects
before commit, so the store is unchanged on error. -/
inductive TransferErr
  | fromNotFound
  | destNotFound
  | nonPositiveAmount
  | insufficientFunds
deriving DecidableEq

/-- accounts.transfer POST branch (accounts.py lines 288-359): look up
both accounts, reject non-positive amounts, refresh the cached balance
of the source account, apply the overdraft-aware funds check — computed
in binary64 floats exactly as the source does at line 312 — get or
create the transfer Source, insert the debit and the credit
transaction, refresh both cached balances and commit. -/
def transfer (st : BankState) (from_id to_account_id : Nat) (amount : Rat)
    (descr : String) (today : Date) : Except TransferErr BankState :=
  match findAccount st from_id with
  | none => .error .fromNotFound
  | some from_acct =>
    match findAccount st to_account_id with
    | none => .error .destNotFound
    | some to_acct =>
      if amount ≤ 0 then .error .nonPositiveAmount
      else
        let st1 := calculate_current_balance st from_id
        let overdraft_limit : Rat := if from_acct.account_type = "current" then 100 else 0
        let cur : Rat :=
          match findAccount st1 from_id with
          | some a => a.current_balance
          | none => 0
        if transferCheckFails cur overdraft_limit amount then .error .insufficientFunds
        else
          let p := getOrCreateSource st1 "transfer" "Internal Transfer"
          let debit_transaction : Transaction :=
            { date := some today,
              description := some ("Transfer to " ++ to_acct.account_name ++ ": " ++ descr),
              amount := -amount,
              account_id := some from_acct.id,
              source_id := some p.1.id,
              source_type := some "transfer" }
          let credit_transaction : Transaction :=
            { date := some today,
              description := some ("Transfer from " ++ from_acct.account_name ++ ": " ++ descr),
              amount := amount,
              account_id := some to_acct.id,
              source_id := some p.1.id,
              source_type := some "transfer" }
          let st3 := { p.2 with
            transactions := p.2.transactions ++ [debit_transaction, credit_transaction] }
          .ok (calculate_current_balance (calculate_current_balance st3 from_id) to_account_id)

theorem sumAmounts_two (t1 t2 : Transaction) (aid : Nat) :
    sumAmounts [t1, t2] aid =
      (if t1.account_id = some aid then t1.amount else 0)
      + (if t2.account_id = some aid then t2.amount else 0) := by
  have h : ([t1, t2] : List Transaction) = [t1] ++ [t2] := rfl
  rw [h, sumAmounts_append, sumAmounts_single, sumAmounts_single]

theorem transfer_ok_parts (st : BankState) (fid tid : Nat) (amt : Rat)
    (descr : String) (d : Date) (A B : Account)
    (hA : findAccount st fid = some A) (hB : findAccount st tid = some B)
    (hpos : 0 < amt)
    (hfunds : transferCheckFails (get_live_balance st A)
      (if A.account_type = "current" then 100 else 0) amt = false) :
    ∃ sid st', transfer st fid tid amt descr d = .ok st'
      ∧ st'.transactions = st.transactions ++
          [⟨none, some d, some ("Transfer to " ++ B.account_name ++ ": " ++ descr),
              -amt, none, some A.id, some sid, some "transfer"⟩,
           ⟨none, some d, some ("Transfer from " ++ A.account_name ++ ": " ++ descr),
              amt, none, some B.id, some sid, some "transfer"⟩] := by
  have hneg : ¬ (amt ≤ 0) := not_le.mpr hpos
  have hcalc := findAccount_calculate st fid A hA
  refine ⟨(getOrCreateSource (calculate_current_balance st fid)
    "transfer" "Internal Transfer").1.id, ?_, ?_, ?_⟩
  · exact calculate_current_balance (calculate_current_balance
      ⟨(getOrCreateSource (calculate_current_balance st fid) "transfer" "Internal Transfer").2.users,
       (getOrCreateSource (calculate_current_balance st fid) "transfer" "Internal Transfer").2.accounts,
       (getOrCreateSource (calculate_current_balance st fid) "transfer" "Internal Transfer").2.transactions ++
         [⟨none, some d, some ("Transfer to " ++ B.account_name ++ ": " ++ descr),
             -amt, none, some A.id,
             some (getOrCreateSource (calculate_current_balance st fid) "transfer" "Internal Transfer").1.id,
             some "transfer"⟩,
          ⟨none, some d, some ("Transfer from " ++ A.account_name ++ ": " ++ descr),
             amt, none, some B.id,
             some (getOrCreateSource (calculate_current_balance st fid) "transfer" "Internal Transfer").1.id,
             some "transfer"⟩],
       (getOrCreateSource (calculate_current_balance st fid) "transfer" "Internal Transfer").2.sources⟩
      fid) tid
  · unfold transfer
    rw [hA, hB]
    dsimp only
    rw [if_neg hneg, hcalc]
    dsimp only
    rw [if_neg (by rw [hfunds]; exact Bool.false_ne_true)]
  · rw [calculate_transactions, calculate_transactions]
    dsimp only
    rw [getOrCreateSource_transactions, calculate_transactions]

theorem transfer_insufficient (st : BankState) (fid tid : Nat) (amt : Rat)
    (descr : String) (d : Date) (A B : Account)
    (hA : findAccount st fid = some A) (hB : findAccount st tid = some B)
    (hpos : 0 < amt)
    (hlt : transferCheckFails (get_live_balance st A)
      (if A.account_type = "current" then 100 else 0) amt = true) :
    transfer st fid tid amt descr d = .error .insufficientFunds := by
  have hneg : ¬ (amt ≤ 0) := not_le.mpr hpos
  have hcalc := findAccount_calculate st fid A hA
  unfold transfer
  rw [hA, hB]
  dsimp only
  rw [if_neg hneg, hcalc]
  dsimp only
  rw [if_pos hlt]

/-- Claim C2: for distinct accounts A and B and a positive amount for
which the funds check passes — the check exactly as the program
computes it, the binary64 comparison of accounts.py line 312, applied
to the spec-modelled cache refresh of the live balance — transfer
inserts exactly two transactions, a debit of minus the amount on A and
a credit of the amount on B, both tagged with the transfer source
type; the stored amounts are exact decimals, so the live balance of A
decreases by exactly the amount, the live balance of B increases by
exactly the amount, and the sum of the two live balances is
unchanged. -/
theorem transfer_round_trip (st : BankState) (fid tid : Nat) (amt : Rat)
    (descr : String) (d : Date) (A B : Account)
    (hA : findAccount st fid = some A) (hB : findAccount st tid = some B)
    (hne : fid ≠ tid) (hpos : 0 < amt)
    (hfunds : transferCheckFails (get_live_balance st A)
      (if A.account_type = "current" then 100 else 0) amt = false) :
    ∃ sid st', transfer st fid tid amt descr d = .ok st'
      ∧ st'.transactions = st.transactions ++
          [⟨none, some d, some ("Transfer to " ++ B.account_name ++ ": " ++ descr),
              -amt, none, some fid, some sid, some "transfer"⟩,
           ⟨none, some d, some ("Transfer from " ++ A.account_name ++ ": " ++ descr),
              amt, none, some tid, some sid, some "transfer"⟩]
      ∧ get_live_balance st' A = get_live_balance st A - amt
      ∧ get_live_balance st' B = get_live_balance st B + amt
      ∧ get_live_balance st' A + get_live_balance st' B
          = get_live_balance st A + get_live_balance st B := by
  obtain ⟨sid, st', heq, htx⟩ :=
    transfer_ok_parts st fid tid amt descr d A B hA hB hpos hfunds
  have hAid := findAccount_id st fid A hA
  have hBid := findAccount_id st tid B hB
  have hBA : ¬ ((some B.id : Option Nat) = some A.id) := by
    rw [hAid, hBid]
    intro hcont
    exact hne (Option.some.inj hcont).symm
  have hAB : ¬ ((some A.id : Option Nat) = some B.id) := by
    rw [hAid, hBid]
    intro hcont
    exact hne (Option.some.inj hcont)
  have hliveA : get_live_balance st' A = get_live_balance st A - amt := by
    unfold get_live_balance
    rw [htx, sumAmounts_append, sumAmounts_two]
    dsimp only
    rw [if_pos rfl, if_neg hBA]
    ring
  have hliveB : get_live_balance st' B = get_live_balance st B + amt := by
    unfold get_live_balance
    rw [htx, sumAmounts_append, sumAmounts_two]
    dsimp only
    rw [if_neg hAB, if_pos rfl]
    ring
  refine ⟨sid, st', heq, ?_, hliveA, hliveB, by rw [hliveA, hliveB]; ring⟩
  rw [htx, hAid, hBid]

/-- Current account whose live balance is exactly -99.98 (stored as the
reduced fraction -4999/50): with the 100 overdraft allowance the exact
available amount is exactly 0.02, the fraction 1/50. -/
def AC3 : Account := ⟨1, 1, "Main", "current", Rat.mk' (-4999) 50, Rat.mk' (-4999) 50⟩

/-- Destination account for the boundary evidence. -/
def BC3 : Account := ⟨2, 1, "Other", "savings", 0, 0⟩

/-- Store for the boundary evidence. -/
def stC3 : BankState := ⟨[1], [AC3, BC3], [], []⟩

/-- Claim C3: the shape of the funds check matches the claim — live
balance plus a 100 allowance for the current account type and 0
otherwise, compared against the amount — but the source evaluates the
comparison in binary64 floats (accounts.py line 312:
float(current_balance) + overdraft_limit < float(amount)), and double
rounding flips the exact boundary at reachable two-decimal balances:
with live balance -99.98 the exact available amount is exactly 0.02,
yet float(-99.98) + 100 = 0.01999999999999602 is below float(0.02), so
the transfer of exactly the available balance plus the allowance that
the claim says succeeds is rejected with InsufficientFunds.  Against
the spec's Money contract, which demands arithmetic free of binary
floating-point rounding error, the float comparison is a slip of the
code.  The theorem exhibits this: the exact available amount equals the
requested amount, and the program still refuses. -/
theorem transfer_boundary_float_bug :
    get_live_balance stC3 AC3 + (if AC3.account_type = "current" then 100 else 0)
      = Rat.mk' 1 50
    ∧ transfer stC3 1 2 (Rat.mk' 1 50) "x" ⟨2024, 1, 6⟩ = .error .insufficientFunds := by
  have hmk1 : (Rat.mk' (-4999) 50 : Rat) = ((-4999 : Int) : Rat) / ((50 : Nat) : Rat) :=
    (Rat.num_div_den _).symm
  have hmk2 : (Rat.mk' 1 50 : Rat) = ((1 : Int) : Rat) / ((50 : Nat) : Rat) :=
    (Rat.num_div_den _).symm
  constructor
  · rw [get_live_balance_nil _ _ rfl]
    show (Rat.mk' (-4999) 50 : Rat)
        + (if ("current" : String) = "current" then (100 : Rat) else 0) = Rat.mk' 1 50
    rw [if_pos rfl, hmk1, hmk2]
    norm_num
  · exact transfer_insufficient stC3 1 2 (Rat.mk' 1 50) "x" ⟨2024, 1, 6⟩ AC3 BC3
      rfl rfl (by decide) (by rw [get_live_balance_nil _ _ rfl]; decide)

/-- Number of stored transactions after a transfer, none when the
transfer failed. -/
def okTransactionCount (e : Except TransferErr BankState) : Option Nat :=
  match e with
  | .ok st => some st.transactions.length
  | .error _ => none

/-- A single current account with balance zero; its id is used as both
the source and the destination of a transfer. -/
def stSame : BankState := ⟨[1], [⟨1, 1, "Main", "current", 0, 0⟩], [], []⟩

/-- Claim C4 counterexample: the handler never compares the two account
ids, so a same-account transfer of 50 out of a zero-balance current
account (overdraft allowance 100) is accepted and inserts two
transactions instead of failing with an invalid-transfer error and
inserting none. -/
theorem transfer_same_account_accepted :
    okTransactionCount (transfer stSame 1 1 50 "x" ⟨2024, 1, 1⟩) = some 2 := by
  obtain ⟨sid, st', hok, htx⟩ :=
    transfer_ok_parts stSame 1 1 50 "x" ⟨2024, 1, 1⟩
      ⟨1, 1, "Main", "current", 0, 0⟩ ⟨1, 1, "Main", "current", 0, 0⟩
      rfl rfl (by norm_num)
      (by rw [get_live_balance_nil _ _ rfl]; decide)
  rw [hok]
  show some st'.transactions.length = some 2
  rw [htx]
  rfl

/-- Claim C4 as amended: transfer rejects a non-positive amount with the
invalid-amount error and inserts nothing, but it does not reject a
same-account transfer: when source and destination ids coincide and the
funds check — the binary64 comparison the program computes — passes, it
succeeds and inserts the two offsetting transactions on that one
account, leaving its live balance unchanged. -/
theorem transfer_invalid_amended (st : BankState) (fid tid : Nat) (amt : Rat)
    (descr : String) (d : Date) (A B : Account)
    (hA : findAccount st fid = some A) (hB : findAccount st tid = some B) :
    (amt ≤ 0 → transfer st fid tid amt descr d = .error .nonPositiveAmount)
    ∧ (fid = tid → 0 < amt
        → transferCheckFails (get_live_balance st A)
            (if A.account_type = "current" then 100 else 0) amt = false
        → ∃ sid st', transfer st fid tid amt descr d = .ok st'
            ∧ st'.transactions = st.transactions ++
                [⟨none, some d,
                    some ("Transfer to " ++ A.account_name ++ ": " ++ descr),
                    -amt, none, some fid, some sid, some "transfer"⟩,
                 ⟨none, some d,
                    some ("Transfer from " ++ A.account_name ++ ": " ++ descr),
                    amt, none, some fid, some sid, some "transfer"⟩]
            ∧ get_live_balance st' A = get_live_balance st A) := by
  constructor
  · intro hle
    unfold transfer
    rw [hA, hB]
    dsimp only
    rw [if_pos hle]
  · intro heq hpos hfunds
    have hB' : findAccount st tid = some A := by rw [← heq, hA]
    have hBA : B = A := by
      rw [hB'] at hB
      exact (Option.some.inj hB).symm
    obtain ⟨sid, st', hok, htx⟩ :=
      transfer_ok_parts st fid tid amt descr d A B hA hB hpos hfunds
    have hAid := findAccount_id st fid A hA
    rw [hBA] at htx
    rw [hAid] at htx
    have hlive : get_live_balance st' A = get_live_balance st A := by
      unfold get_live_balance
      rw [htx, sumAmounts_append, sumAmounts_two]
      dsimp only
      rw [hAid]
      rw [if_pos rfl, if_pos rfl]
      ring
    exact ⟨sid, st', hok, htx, hlive⟩

/-- Source account for the transfer witnesses. -/
def AW2 : Account := ⟨1, 1, "Alpha", "current", 100, 100⟩

/-- Destination account for the transfer witnesses. -/
def BW2 : Account := ⟨2, 1, "Beta", "savings", 50, 50⟩

/-- Two-account store for the transfer witnesses. -/
def stW2 : BankState := ⟨[1], [AW2, BW2], [], []⟩

theorem transfer_round_trip_witness :
    ∃ sid st', transfer stW2 1 2 30 "x" ⟨2024, 1, 2⟩ = .ok st'
      ∧ st'.transactions = stW2.transactions ++
          [⟨none, some ⟨2024, 1, 2⟩,
              some ("Transfer to " ++ BW2.account_name ++ ": " ++ "x"),
              -30, none, some 1, some sid, some "transfer"⟩,
           ⟨none, some ⟨2024, 1, 2⟩,
              some ("Transfer from " ++ AW2.account_name ++ ": " ++ "x"),
              30, none, some 2, some sid, some "transfer"⟩]
      ∧ get_live_balance st' AW2 = get_live_balance stW2 AW2 - 30
      ∧ get_live_balance st' BW2 = get_live_balance stW2 BW2 + 30
      ∧ get_live_balance st' AW2 + get_live_balance st' BW2
          = get_live_balance stW2 AW2 + get_live_balance stW2 BW2 :=
  transfer_round_trip stW2 1 2 30 "x" ⟨2024, 1, 2⟩ AW2 BW2 rfl rfl
    (by decide) (by norm_num)
    (by rw [get_live_balance_nil _ _ rfl]; decide)

/-- Account for the amended-claim-C4 witness. -/
def AW4 : Account := ⟨1, 1, "Main", "current", 20, 20⟩

/-- Store for the amended-claim-C4 witness. -/
def stW4 : BankState := ⟨[1], [AW4], [], []⟩

theorem transfer_invalid_amended_witness :
    transfer stW4 1 1 0 "x" ⟨2024, 1, 2⟩ = .error .nonPositiveAmount
    ∧ ∃ sid st', transfer stW4 1 1 50 "x" ⟨2024, 1, 2⟩ = .ok st'
        ∧ st'.transactions = stW4.transactions ++
            [⟨none, some ⟨2024, 1, 2⟩,
                some ("Transfer to " ++ AW4.account_name ++ ": " ++ "x"),
                -50, none, some 1, some sid, some "transfer"⟩,
             ⟨none, some ⟨2024, 1, 2⟩,
                some ("Transfer from " ++ AW4.account_name ++ ": " ++ "x"),
                50, none, some 1, some sid, some "transfer"⟩]
        ∧ get_live_balance st' AW4 = get_live_balance stW4 AW4 :=
  ⟨(transfer_invalid_amended stW4 1 1 0 "x" ⟨2024, 1, 2⟩ AW4 AW4 rfl rfl).1
      (by norm_num),
   (transfer_invalid_amended stW4 1 1 50 "x" ⟨2024, 1, 2⟩ AW4 AW4 rfl rfl).2
      rfl (by norm_num)
      (by rw [get_live_balance_nil _ _ rfl]; decide)⟩

theorem get_live_balance_calculate (st : BankState) (aid : Nat) (b : Account) :
    get_live_balance (calculate_current_balance st aid) b = get_live_balance st b := by
  unfold get_live_balance
  rw [calculate_transactions]

/-- Error of the accounts.add POST handler: the selected user does not
exist; the handler redirects without writing anything. -/
inductive AddErr
  | userNotFound
deriving DecidableEq

/-- accounts.add POST branch (accounts.py lines 38-96): validate the
user, create the account, and when the opening balance is nonzero also
create the opening-balance transaction through the opening_balance
Source; one commit covers both writes and the exception handler rolls
back, so the model returns either the full new state or an error with
no state change.  The fresh account id models the flush that assigns
the next primary key. -/
def add_account (st : BankState) (user_id : Nat) (account_name account_type : String)
    (opening_balance : Rat) (today : Date) : Except AddErr (BankState × Nat) :=
  if user_id ∈ st.users then
    let aid := st.accounts.foldl (fun m a => max m a.id) 0 + 1
    let account : Account :=
      { id := aid, user_id := user_id, account_name := account_name,
        account_type := account_type, opening_balance := opening_balance,
        current_balance := opening_balance }
    let st1 : BankState := ⟨st.users, st.accounts ++ [account], st.transactions, st.sources⟩
    if opening_balance ≠ 0 then
      let p := getOrCreateSource st1 "opening_balance" "Opening Balance"
      let opening_transaction : Transaction :=
        { date := some today,
          description := some ("Opening balance for " ++ account_name),
          amount := opening_balance,
          account_id := some aid,
          source_id := some p.1.id,
          source_type := some "opening_balance" }
      .ok (⟨p.2.users, p.2.accounts, p.2.transactions ++ [opening_transaction], p.2.sources⟩, aid)
    else .ok (st1, aid)
  else .error .userNotFound

/-- Claim C8: adding an account for an existing user appends exactly one
account row carrying the opening balance, and appends one
opening-balance transaction, dated today, linked to the new account,
with amount equal to the opening balance and tagged with the
opening_balance source type, exactly when the opening balance is
nonzero; with a zero opening balance the transactions are untouched.
Atomicity holds by construction: the model commits the whole new state
or returns an error leaving the store unchanged. -/
theorem open_account_opening_transaction (st : BankState) (uid : Nat)
    (nm ty : String) (ob : Rat) (d : Date) (h : uid ∈ st.users) :
    ∃ aid st', add_account st uid nm ty ob d = .ok (st', aid)
      ∧ st'.accounts = st.accounts ++ [⟨aid, uid, nm, ty, ob, ob⟩]
      ∧ (ob = 0 → st'.transactions = st.transactions)
      ∧ (ob ≠ 0 → ∃ sid, st'.transactions = st.transactions ++
          [⟨none, some d, some ("Opening balance for " ++ nm), ob, none,
              some aid, some sid, some "opening_balance"⟩]) := by
  by_cases hob : ob = 0
  · refine ⟨st.accounts.foldl (fun m a => max m a.id) 0 + 1, ?_, ?_, ?_, ?_, ?_⟩
    · exact ⟨st.users,
        st.accounts ++ [⟨st.accounts.foldl (fun m a => max m a.id) 0 + 1, uid, nm, ty, ob, ob⟩],
        st.transactions, st.sources⟩
    · unfold add_account
      rw [if_pos h]
      dsimp only
      rw [if_neg (not_not_intro hob)]
    · rfl
    · intro
      rfl
    · intro hcon
      exact absurd hob hcon
  · refine ⟨st.accounts.foldl (fun m a => max m a.id) 0 + 1, ?_, ?_, ?_, ?_, ?_⟩
    · exact ⟨(getOrCreateSource ⟨st.users,
          st.accounts ++ [⟨st.accounts.foldl (fun m a => max m a.id) 0 + 1, uid, nm, ty, ob, ob⟩],
          st.transactions, st.sources⟩ "opening_balance" "Opening Balance").2.users,
        (getOrCreateSource ⟨st.users,
          st.accounts ++ [⟨st.accounts.foldl (fun m a => max m a.id) 0 + 1, uid, nm, ty, ob, ob⟩],
          st.transactions, st.sources⟩ "opening_balance" "Opening Balance").2.accounts,
        (getOrCreateSource ⟨st.users,
          st.accounts ++ [⟨st.accounts.foldl (fun m a => max m a.id) 0 + 1, uid, nm, ty, ob, ob⟩],
          st.transactions, st.sources⟩ "opening_balance" "Opening Balance").2.transactions ++
          [⟨none, some d, some ("Opening balance for " ++ nm), ob, none,
              some (st.accounts.foldl (fun m a => max m a.id) 0 + 1),
              some (getOrCreateSource ⟨st.users,
                st.accounts ++ [⟨st.accounts.foldl (fun m a => max m a.id) 0 + 1, uid, nm, ty, ob, ob⟩],
                st.transactions, st.sources⟩ "opening_balance" "Opening Balance").1.id,
              some "opening_balance"⟩],
        (getOrCreateSource ⟨st.users,
          st.accounts ++ [⟨st.accounts.foldl (fun m a => max m a.id) 0 + 1, uid, nm, ty, ob, ob⟩],
          st.transactions, st.sources⟩ "opening_balance" "Opening Balance").2.sources⟩
    · unfold add_account
      rw [if_pos h]
      dsimp only
      rw [if_pos hob]
    · dsimp only
      rw [getOrCreateSource_accounts]
    · intro hcon
      exact absurd hcon hob
    · intro
      refine ⟨(getOrCreateSource ⟨st.users,
        st.accounts ++ [⟨st.accounts.foldl (fun m a => max m a.id) 0 + 1, uid, nm, ty, ob, ob⟩],
        st.transactions, st.sources⟩ "opening_balance" "Opening Balance").1.id, ?_⟩
      dsimp only
      rw [getOrCreateSource_transactions]

/-- Store for the account-opening witness: one user, nothing else. -/
def stW8 : BankState := ⟨[7], [], [], []⟩

theorem open_account_opening_transaction_witness :
    ∃ aid st', add_account stW8 7 "Holiday" "savings" 250 ⟨2024, 1, 3⟩ = .ok (st', aid)
      ∧ st'.accounts = stW8.accounts ++ [⟨aid, 7, "Holiday", "savings", 250, 250⟩]
      ∧ ((250 : Rat) = 0 → st'.transactions = stW8.transactions)
      ∧ ((250 : Rat) ≠ 0 → ∃ sid, st'.transactions = stW8.transactions ++
          [⟨none, some ⟨2024, 1, 3⟩, some ("Opening balance for " ++ "Holiday"), 250, none,
              some aid, some sid, some "opening_balance"⟩]) :=
  open_account_opening_transaction stW8 7 "Holiday" "savings" 250 ⟨2024, 1, 3⟩ (by decide)

/-- Round to the nearest integer, ties to even: the rounding mode Python
uses when formatting a Decimal with two fractional digits. -/
def rndHalfEven (q : Rat) : Int :=
  let f := q.floor
  let r := q - (f : Rat)
  if r < 1/2 then f
  else if 1/2 < r then f + 1
  else if f % 2 = 0 then f else f + 1

/-- Two-decimal formatting of a Decimal amount, as in the Python
f-string with the .2f format specifier. -/
def pounds2dp (q : Rat) : String :=
  let cents := (rndHalfEven (|q| * 100)).toNat
  (if q < 0 then "-" else "") ++ toString (cents / 100) ++ "." ++
    (if cents % 100 < 10 then "0" else "") ++ toString (cents % 100)

/-- Error of the accounts.edit POST handler: unknown account id
(get_or_404). -/
inductive EditErr
  | accountNotFound
deriving DecidableEq

/-- accounts.edit POST branch (accounts.py lines 175-224): update name
and type, and when the submitted opening balance differs from the
stored one, overwrite the stored opening balance AND insert an
adjustment transaction carrying the signed difference, then refresh the
cached balance and commit. -/
def edit_account (st : BankState) (aid : Nat) (account_name account_type : String)
    (new_opening_balance : Rat) (today : Date) : Except EditErr BankState :=
  match findAccount st aid with
  | none => .error .accountNotFound
  | some account =>
    let st1 : BankState := ⟨st.users,
      setAccount st.accounts aid
        (fun b => { b with account_name := account_name, account_type := account_type }),
      st.transactions, st.sources⟩
    if new_opening_balance ≠ account.opening_balance then
      let difference := new_opening_balance - account.opening_balance
      let st2 : BankState := ⟨st1.users,
        setAccount st1.accounts aid (fun b => { b with opening_balance := new_opening_balance }),
        st1.transactions, st1.sources⟩
      if difference ≠ 0 then
        let p := getOrCreateSource st2 "adjustment" "Balance Adjustment"
        let adjustment_transaction : Transaction :=
          { date := some today,
            description := some ("Opening balance adjustment: £" ++ pounds2dp difference),
            amount := difference,
            account_id := some account.id,
            source_id := some p.1.id,
            source_type := some "adjustment" }
        let st4 : BankState :=
          ⟨p.2.users, p.2.accounts, p.2.transactions ++ [adjustment_transaction], p.2.sources⟩
        .ok (calculate_current_balance st4 aid)
      else .ok (calculate_current_balance st2 aid)
    else .ok (calculate_current_balance st1 aid)

/-- Proof scaffold: the store of edit_account after the name, type and
opening-balance updates, before the adjustment Source lookup. -/
def editState2 (st : BankState) (aid : Nat) (nm ty : String) (newB : Rat) : BankState :=
  ⟨st.users,
   setAccount (setAccount st.accounts aid
       (fun b => { b with account_name := nm, account_type := ty })) aid
     (fun b => { b with opening_balance := newB }),
   st.transactions, st.sources⟩

/-- Proof scaffold: the adjustment transaction edit_account inserts. -/
def editAdjTx (st : BankState) (aid : Nat) (nm ty : String) (a : Account)
    (newB : Rat) (d : Date) : Transaction :=
  ⟨none, some d,
   some ("Opening balance adjustment: £" ++ pounds2dp (newB - a.opening_balance)),
   newB - a.opening_balance, none, some a.id,
   some (getOrCreateSource (editState2 st aid nm ty newB)
     "adjustment" "Balance Adjustment").1.id,
   some "adjustment"⟩

/-- Proof scaffold: the store after the adjustment transaction is
inserted, before the final cache refresh. -/
def editMidState (st : BankState) (aid : Nat) (nm ty : String) (a : Account)
    (newB : Rat) (d : Date) : BankState :=
  ⟨(getOrCreateSource (editState2 st aid nm ty newB) "adjustment" "Balance Adjustment").2.users,
   (getOrCreateSource (editState2 st aid nm ty newB) "adjustment" "Balance Adjustment").2.accounts,
   (getOrCreateSource (editState2 st aid nm ty newB) "adjustment" "Balance Adjustment").2.transactions
     ++ [editAdjTx st aid nm ty a newB d],
   (getOrCreateSource (editState2 st aid nm ty newB) "adjustment" "Balance Adjustment").2.sources⟩

/-- Proof scaffold: the store edit_account commits on the
balance-changing path. -/
def edit_success_state (st : BankState) (aid : Nat) (nm ty : String) (a : Account)
    (newB : Rat) (d : Date) : BankState :=
  calculate_current_balance (editMidState st aid nm ty a newB d) aid

theorem editMidState_transactions (st : BankState) (aid : Nat) (nm ty : String)
    (a : Account) (newB : Rat) (d : Date) :
    (editMidState st aid nm ty a newB d).transactions
      = st.transactions ++ [editAdjTx st aid nm ty a newB d] := by
  unfold editMidState
  dsimp only
  rw [getOrCreateSource_transactions]
  rfl

/-- Claim C10: when the submitted opening balance differs from the
stored one, the edit handler both overwrites the stored opening balance
with the new value and inserts one adjustment transaction carrying the
signed difference on the account; consequently the live balance after
the edit differs from the live balance before it by exactly twice the
difference, not by the difference. -/
theorem edit_opening_balance_double_count (st : BankState) (aid : Nat)
    (a : Account) (nm ty : String) (newB : Rat) (d : Date)
    (hA : findAccount st aid = some a) (hne : newB ≠ a.opening_balance) :
    ∃ st' a' t, edit_account st aid nm ty newB d = .ok st'
      ∧ st'.transactions = st.transactions ++ [t]
      ∧ t.amount = newB - a.opening_balance
      ∧ t.account_id = some aid
      ∧ t.source_type = some "adjustment"
      ∧ findAccount st' aid = some a'
      ∧ a'.opening_balance = newB
      ∧ get_live_balance st' a' = get_live_balance st a + 2 * (newB - a.opening_balance) := by
  have hAid := findAccount_id st aid a hA
  have hdiff : newB - a.opening_balance ≠ 0 := sub_ne_zero.mpr hne
  have heq : edit_account st aid nm ty newB d
      = .ok (edit_success_state st aid nm ty a newB d) := by
    unfold edit_account
    rw [hA]
    dsimp only
    rw [if_pos hne, if_pos hdiff]
    rfl
  have hfind2 : (editState2 st aid nm ty newB).accounts.find? (fun b => b.id = aid)
      = some ⟨a.id, a.user_id, nm, ty, newB, a.current_balance⟩ := by
    unfold editState2
    dsimp only
    rw [find?_setAccount _ aid
        (fun b => ({ b with opening_balance := newB } : Account)) (fun b => rfl),
      find?_setAccount _ aid
        (fun b => ({ b with account_name := nm, account_type := ty } : Account)) (fun b => rfl)]
    unfold findAccount at hA
    rw [hA]
    rfl
  have hmid : findAccount (editMidState st aid nm ty a newB d) aid
      = some ⟨a.id, a.user_id, nm, ty, newB, a.current_balance⟩ := by
    unfold findAccount editMidState
    dsimp only
    rw [getOrCreateSource_accounts]
    exact hfind2
  have htx : (edit_success_state st aid nm ty a newB d).transactions
      = st.transactions ++ [editAdjTx st aid nm ty a newB d] := by
    unfold edit_success_state
    rw [calculate_transactions, editMidState_transactions]
  refine ⟨edit_success_state st aid nm ty a newB d,
    ⟨a.id, a.user_id, nm, ty, newB,
      get_live_balance (editMidState st aid nm ty a newB d)
        ⟨a.id, a.user_id, nm, ty, newB, a.current_balance⟩⟩,
    editAdjTx st aid nm ty a newB d,
    heq, htx, rfl, ?_, rfl, ?_, rfl, ?_⟩
  · show (some a.id : Option Nat) = some aid
    rw [hAid]
  · exact findAccount_calculate (editMidState st aid nm ty a newB d) aid _ hmid
  · unfold edit_success_state
    rw [get_live_balance_calculate]
    unfold get_live_balance
    rw [editMidState_transactions, sumAmounts_append, sumAmounts_single]
    unfold editAdjTx
    dsimp only
    rw [if_pos rfl]
    ring

/-- Account for the opening-balance-edit witness. -/
def AW10 : Account := ⟨1, 1, "Main", "current", 10, 10⟩

/-- Store for the opening-balance-edit witness. -/
def stW10 : BankState := ⟨[1], [AW10], [], []⟩

theorem edit_opening_balance_double_count_witness :
    ∃ st' a' t, edit_account stW10 1 "Main" "current" 40 ⟨2024, 1, 4⟩ = .ok st'
      ∧ st'.transactions = stW10.transactions ++ [t]
      ∧ t.amount = 40 - AW10.opening_balance
      ∧ t.account_id = some 1
      ∧ t.source_type = some "adjustment"
      ∧ findAccount st' 1 = some a'
      ∧ a'.opening_balance = 40
      ∧ get_live_balance st' a'
          = get_live_balance stW10 AW10 + 2 * (40 - AW10.opening_balance) :=
  edit_opening_balance_double_count stW10 1 AW10 "Main" "current" 40 ⟨2024, 1, 4⟩
    rfl (by norm_num [AW10])

/-- One transaction of the (mocked) bank feed payload, with the fields
open_banking.sync_transactions reads. -/
structure IncomingTx where
  transaction_id : String
  amount : Rat
  credit_debit_indicator : String
  booking_date : Date
  info : String
deriving DecidableEq

/-- Amount normalisation of sync_transactions (open_banking.py lines
358-361): the payload amount, forced negative when the indicator says
Debit. -/
def importAmount (t : IncomingTx) : Rat :=
  if t.credit_debit_indicator = "Debit" then -|t.amount| else t.amount

/-- One iteration of the import loop of sync_transactions
(open_banking.py lines 349-380): skip when a stored transaction with
the same external id exists (no insert, no update, no error);
otherwise insert the normalised transaction tagged with the
open_banking Source.  Returns the new store and the number of imported
rows (0 or 1). -/
def syncOne (st : BankState) (aid : Nat) (t : IncomingTx) : BankState × Nat :=
  match st.transactions.find? (fun tx => tx.external_id = some t.transaction_id) with
  | some _ => (st, 0)
  | none =>
    let p := get_or_create_open_banking_source st
    (⟨p.2.users, p.2.accounts, p.2.transactions ++
        [⟨some t.transaction_id, some t.booking_date, some t.info, importAmount t,
          none, some aid, some p.1.id, some "open_banking"⟩], p.2.sources⟩, 1)

/-- sync_transactions for one connected account (open_banking.py lines
339-385): fold the feed through the dedup-or-insert step, then refresh
the cached balance; returns the new store and the imported count the
route reports in its success flash. -/
def sync_transactions (st : BankState) (aid : Nat) (batch : List IncomingTx) : BankState × Nat :=
  let r := batch.foldl (fun (acc : BankState × Nat) t =>
    let r1 := syncOne acc.1 aid t
    (r1.1, acc.2 + r1.2)) (st, 0)
  (calculate_current_balance r.1 aid, r.2)

/-- Number of stored transactions carrying the given external id. -/
def countExt (txs : List Transaction) (eid : String) : Nat :=
  (txs.filter (fun tx => tx.external_id = some eid)).length

theorem countExt_zero_find (txs : List Transaction) (eid : String)
    (h : countExt txs eid = 0) :
    txs.find? (fun tx => tx.external_id = some eid) = none := by
  unfold countExt at h
  rw [List.length_eq_zero, List.filter_eq_nil_iff] at h
  rw [List.find?_eq_none]
  intro x hx
  exact h x hx

theorem countExt_append (l1 l2 : List Transaction) (eid : String) :
    countExt (l1 ++ l2) eid = countExt l1 eid + countExt l2 eid := by
  unfold countExt
  rw [List.filter_append, List.length_append]

theorem get_or_create_ob_transactions (st : BankState) :
    (get_or_create_open_banking_source st).2.transactions = st.transactions := by
  unfold get_or_create_open_banking_source
  rw [getOrCreateSource_transactions]

/-- Claim C5: importing an externally-sourced transaction whose
non-empty external id is already stored performs no insert, no update
and no error; hence syncing the same transaction twice leaves exactly
one stored row for that external id, the first sync reports one
imported row and the second sync still returns normally, reporting
zero imported rows. -/
theorem sync_dedup_idempotent (st : BankState) (aid : Nat) (t : IncomingTx)
    (h0 : countExt st.transactions t.transaction_id = 0)
    (_hne : t.transaction_id ≠ "") :
    (∀ st2 : BankState, ∀ tx0 : Transaction,
        st2.transactions.find? (fun tx => tx.external_id = some t.transaction_id) = some tx0
        → syncOne st2 aid t = (st2, 0))
    ∧ countExt (sync_transactions st aid [t]).1.transactions t.transaction_id = 1
    ∧ (sync_transactions st aid [t]).2 = 1
    ∧ countExt (sync_transactions (sync_transactions st aid [t]).1 aid [t]).1.transactions
        t.transaction_id = 1
    ∧ (sync_transactions (sync_transactions st aid [t]).1 aid [t]).2 = 0 := by
  have hskip : ∀ st2 : BankState, ∀ tx0 : Transaction,
      st2.transactions.find? (fun tx => tx.external_id = some t.transaction_id) = some tx0
      → syncOne st2 aid t = (st2, 0) := by
    intro st2 tx0 hfound
    unfold syncOne
    rw [hfound]
  have hnone := countExt_zero_find st.transactions t.transaction_id h0
  have hone : syncOne st aid t =
      (⟨(get_or_create_open_banking_source st).2.users,
        (get_or_create_open_banking_source st).2.accounts,
        (get_or_create_open_banking_source st).2.transactions ++
          [⟨some t.transaction_id, some t.booking_date, some t.info, importAmount t,
            none, some aid, some (get_or_create_open_banking_source st).1.id,
            some "open_banking"⟩],
        (get_or_create_open_banking_source st).2.sources⟩, 1) := by
    unfold syncOne
    rw [hnone]
  have hfirst : sync_transactions st aid [t]
      = (calculate_current_balance (syncOne st aid t).1 aid,
         0 + (syncOne st aid t).2) := rfl
  have hcount1 : countExt (sync_transactions st aid [t]).1.transactions t.transaction_id = 1 := by
    rw [hfirst, calculate_transactions, hone]
    dsimp only
    rw [get_or_create_ob_transactions, countExt_append, h0]
    unfold countExt
    simp [List.filter]
  have hnum1 : (sync_transactions st aid [t]).2 = 1 := by
    rw [hfirst, hone]
    rfl
  have hsome : ∃ tx0, (sync_transactions st aid [t]).1.transactions.find?
      (fun tx => tx.external_id = some t.transaction_id) = some tx0 := by
    have hiss : ((sync_transactions st aid [t]).1.transactions.find?
        (fun tx => tx.external_id = some t.transaction_id)).isSome := by
      rw [List.find?_isSome]
      have : 0 < countExt (sync_transactions st aid [t]).1.transactions t.transaction_id := by
        rw [hcount1]
        exact Nat.zero_lt_one
      unfold countExt at this
      rw [List.length_pos] at this
      obtain ⟨tx0, htx0⟩ := List.exists_mem_of_ne_nil _ this
      rw [List.mem_filter] at htx0
      exact ⟨tx0, htx0.1, htx0.2⟩
    obtain ⟨tx0, htx0⟩ := Option.isSome_iff_exists.mp hiss
    exact ⟨tx0, htx0⟩
  obtain ⟨tx0, htx0⟩ := hsome
  have hsecond : sync_transactions (sync_transactions st aid [t]).1 aid [t]
      = (calculate_current_balance (sync_transactions st aid [t]).1 aid, 0) := by
    show (calculate_current_balance
        (syncOne (sync_transactions st aid [t]).1 aid t).1 aid,
      0 + (syncOne (sync_transactions st aid [t]).1 aid t).2) = _
    rw [hskip (sync_transactions st aid [t]).1 tx0 htx0]
    rfl
  refine ⟨hskip, hcount1, hnum1, ?_, ?_⟩
  · rw [hsecond, calculate_transactions]
    exact hcount1
  · rw [hsecond]

/-- Feed transaction for the dedup witness. -/
def tW5 : IncomingTx := ⟨"tx-abc", 12, "Debit", ⟨2024, 1, 5⟩, "TESCO STORES 3297"⟩

/-- Store for the dedup witness: one connected account, no transactions. -/
def stW5 : BankState := ⟨[1], [⟨1, 1, "Main", "current", 0, 0⟩], [], []⟩

theorem sync_dedup_idempotent_witness :
    (∀ st2 : BankState, ∀ tx0 : Transaction,
        st2.transactions.find? (fun tx => tx.external_id = some tW5.transaction_id) = some tx0
        → syncOne st2 1 tW5 = (st2, 0))
    ∧ countExt (sync_transactions stW5 1 [tW5]).1.transactions tW5.transaction_id = 1
    ∧ (sync_transactions stW5 1 [tW5]).2 = 1
    ∧ countExt (sync_transactions (sync_transactions stW5 1 [tW5]).1 1 [tW5]).1.transactions
        tW5.transaction_id = 1
    ∧ (sync_transactions (sync_transactions stW5 1 [tW5]).1 1 [tW5]).2 = 0 :=
  sync_dedup_idempotent stW5 1 tW5 rfl (by decide)

/-- Value of a list of decimal digit characters. -/
def natOfDigits (cs : List Char) : Nat :=
  cs.foldl (fun n c => 10 * n + (c.toNat - 48)) 0

/-- Parse a nonempty all-digit character list. -/
def parseNatChars (cs : List Char) : Option Nat :=
  if !cs.isEmpty && cs.all Char.isDigit then some (natOfDigits cs) else none

def isLeap (y : Nat) : Bool := (y % 4 == 0 && y % 100 != 0) || y % 400 == 0

def daysInMonth (y m : Nat) : Nat :=
  if m = 2 then (if isLeap y then 29 else 28)
  else if m = 4 ∨ m = 6 ∨ m = 9 ∨ m = 11 then 30
  else 31

/-- Calendar validation of datetime.strptime: month and day ranges. -/
def mkDate (y m d : Nat) : Option Date :=
  if 1 ≤ m ∧ m ≤ 12 ∧ 1 ≤ d ∧ d ≤ daysInMonth y m then some ⟨y, m, d⟩ else none

/-- Split a character list on a separator character. -/
def splitChar (sep : Char) : List Char → List (List Char)
  | [] => [[]]
  | c :: rest =>
    let r := splitChar sep rest
    if c = sep then [] :: r
    else
      match r with
      | [] => [[c]]
      | h :: t => (c :: h) :: t

def split3c (sep : Char) (s : String) : Option (List Char × List Char × List Char) :=
  match splitChar sep s.data with
  | [a, b, c] => some (a, b, c)
  | _ => none

/-- strptime against a year-month-day pattern with the given separator. -/
def strptimeYMD (sep : Char) (s : String) : Option Date :=
  match split3c sep s with
  | some (sy, sm, sd) =>
    match parseNatChars sy, parseNatChars sm, parseNatChars sd with
    | some y, some m, some d => mkDate y m d
    | _, _, _ => none
  | none => none

/-- strptime against a day-month-year pattern with the given separator. -/
def strptimeDMY (sep : Char) (s : String) : Option Date :=
  match split3c sep s with
  | some (sd, sm, sy) =>
    match parseNatChars sd, parseNatChars sm, parseNatChars sy with
    | some d, some m, some y => mkDate y m d
    | _, _, _ => none
  | none => none

/-- The ordered date-format trial loop of
TransactionHelper.import_from_csv (transaction_helper.py lines 21-28),
its formats tried in the source order. -/
def parse_date_formats (s : String) : Option Date :=
  match strptimeYMD '-' s with
  | some dt => some dt
  | none =>
    match strptimeDMY '/' s with
    | some dt => some dt
    | none => strptimeDMY '-' s

/-- Python float(s) on the decimal forms the import feeds it: optional
sign, digits, optional fractional digits.  Exponent, infinity,
underscore and whitespace forms of the Python parser are not exercised
by any claim input and are omitted. -/
def parseFloatChars (cs : List Char) : Option Rat :=
  let sgncs : Rat × List Char :=
    match cs with
    | '-' :: r => (-1, r)
    | '+' :: r => (1, r)
    | _ => (1, cs)
  let ip := sgncs.2.takeWhile Char.isDigit
  let rest := sgncs.2.dropWhile Char.isDigit
  match rest with
  | [] => if ip.isEmpty then none else some (sgncs.1 * (natOfDigits ip : Rat))
  | '.' :: fp =>
    if fp.all Char.isDigit && !(ip.isEmpty && fp.isEmpty) then
      some (sgncs.1 * ((natOfDigits ip : Rat) + (natOfDigits fp : Rat) / (10 : Rat) ^ fp.length))
    else none
  | _ => none

def pyFloat (s : String) : Option Rat := parseFloatChars s.data

/-- The .replace of the source: drop every comma. -/
def stripCommas (s : String) : String := ⟨s.data.filter (fun c => c ≠ ',')⟩

/-- One raw CSV row with the four columns the import reads; a missing
key is none (dict.get). -/
structure CsvRow where
  date_str : Option String
  descr_str : Option String
  debit_str : Option String
  credit_str : Option String
deriving DecidableEq

/-- Python value-or-default: row.get(k) or picks the default for both a
missing key and an empty string (both falsy). -/
def orZero (v : Option String) : String :=
  match v with
  | none => "0"
  | some s => if s = "" then "0" else s

/-- One iteration of the row loop of TransactionHelper.import_from_csv
(transaction_helper.py lines 9-37): the amount is credit minus debit
with missing or empty columns read as 0 and any parse failure of the
pair giving 0; the date is the first matching format or null; the
description passes through; the row is always turned into a pending
transaction and counted, with no row-level error. -/
def importRow (row : CsvRow) : Transaction :=
  let debit := orZero row.debit_str
  let credit := orZero row.credit_str
  let amount : Rat :=
    match pyFloat (stripCommas credit), pyFloat (stripCommas debit) with
    | some c, some d => c - d
    | _, _ => 0
  let date : Option Date :=
    match row.date_str with
    | none => none
    | some ds => parse_date_formats ds
  ⟨none, date, row.descr_str, amount, none, none, none, none⟩

/-- TransactionHelper.import_from_csv before its final commit: every
row is added to the session and counted; the returned value is the
imported count, not a triple, and no error list exists. -/
def import_from_csv (rows : List CsvRow) : Nat × List Transaction :=
  (rows.length, rows.map importRow)

/-- Database-level failure of the single commit. -/
inductive DbErr
  | notNullViolation
deriving DecidableEq

/-- The single db.session.commit() at the end of import_from_csv
(transaction_helper.py line 40): models.Transaction declares date and
description NOT NULL, so the commit fails when any pending row carries
a null date or description, and then nothing from the batch persists. -/
def commitImport (txs : List Transaction) : Except DbErr Unit :=
  if txs.any (fun tx => tx.date.isNone || tx.description.isNone) then
    .error .notNullViolation
  else .ok ()

/-- import_from_csv including its commit: either the whole batch
persists and the count is returned, or the commit fails and nothing
persists. -/
def run_import (rows : List CsvRow) : Except DbErr (Nat × List Transaction) :=
  match commitImport (import_from_csv rows).2 with
  | .ok _ => .ok (import_from_csv rows)
  | .error e => .error e

/-- A row carrying both a debit and a credit value. -/
def rowBoth : CsvRow := ⟨some "15/03/2024", some "BOTH", some "5", some "10"⟩

/-- Claim C6 counterexample: on a row with debit 5 and credit 10 the
normalizer produces amount 5 (credit minus debit), not +10 as the
claimed rule (amount is +credit whenever a credit value parses) would
give. -/
theorem import_amount_credit_minus_debit_cex :
    (importRow rowBoth).amount = 5 ∧ (importRow rowBoth).amount ≠ 10 := by
  have h : (importRow rowBoth).amount
      = (1 : Rat) * ((10 : Nat) : Rat) - (1 : Rat) * ((5 : Nat) : Rat) := rfl
  constructor
  · rw [h]
    norm_num
  · rw [h]
    norm_num

theorem pyFloat_zero : pyFloat (stripCommas "0") = some 0 := by
  show some ((1 : Rat) * ((0 : Nat) : Rat)) = some 0
  norm_num

/-- Claim C6 as amended: the normalizer computes the amount as the
parsed credit minus the parsed debit, a missing or empty column reading
as 0; so with an empty credit the amount is minus the debit and with an
empty debit it is plus the credit, and no parse outcome ever fails the
row.  The concrete scenario holds: the TESCO row normalizes to date
2024-03-15, description TESCO and amount -23.50. -/
theorem import_amount_amended (r : CsvRow) (cv dv : Rat) :
    ((r.credit_str = none ∨ r.credit_str = some "")
      → pyFloat (stripCommas (orZero r.debit_str)) = some dv
      → (importRow r).amount = -dv)
    ∧ ((r.debit_str = none ∨ r.debit_str = some "")
      → pyFloat (stripCommas (orZero r.credit_str)) = some cv
      → (importRow r).amount = cv)
    ∧ (pyFloat (stripCommas (orZero r.credit_str)) = some cv
      → pyFloat (stripCommas (orZero r.debit_str)) = some dv
      → (importRow r).amount = cv - dv)
    ∧ importRow ⟨some "15/03/2024", some "TESCO", some "23.50", some ""⟩
        = ⟨none, some ⟨2024, 3, 15⟩, some "TESCO", -(47/2), none, none, none, none⟩ := by
  have hgen : ∀ c d : Rat,
      pyFloat (stripCommas (orZero r.credit_str)) = some c
      → pyFloat (stripCommas (orZero r.debit_str)) = some d
      → (importRow r).amount = c - d := by
    intro c d hc hd
    unfold importRow
    dsimp only
    rw [hc, hd]
  refine ⟨?_, ?_, hgen cv dv, ?_⟩
  · intro hcred hdeb
    have hzero : pyFloat (stripCommas (orZero r.credit_str)) = some 0 := by
      rcases hcred with hc | hc
      · rw [hc]
        exact pyFloat_zero
      · rw [hc]
        exact pyFloat_zero
    rw [hgen 0 dv hzero hdeb]
    ring
  · intro hdeb hcred
    have hzero : pyFloat (stripCommas (orZero r.debit_str)) = some 0 := by
      rcases hdeb with hd | hd
      · rw [hd]
        exact pyFloat_zero
      · rw [hd]
        exact pyFloat_zero
    rw [hgen cv 0 hcred hzero]
    ring
  · have hfrm : importRow ⟨some "15/03/2024", some "TESCO", some "23.50", some ""⟩
        = ⟨none, some ⟨2024, 3, 15⟩, some "TESCO",
           (1 : Rat) * ((0 : Nat) : Rat)
             - (1 : Rat) * (((23 : Nat) : Rat) + ((50 : Nat) : Rat) / (10 : Rat) ^ (2 : Nat)),
           none, none, none, none⟩ := rfl
    rw [hfrm]
    simp only [Transaction.mk.injEq]
    norm_num

theorem import_amount_amended_witness :
    (importRow ⟨some "01/02/2024", some "W", some "7", none⟩).amount = -7
    ∧ (importRow ⟨some "01/02/2024", some "W", none, some "9"⟩).amount = 9
    ∧ importRow ⟨some "15/03/2024", some "TESCO", some "23.50", some ""⟩
        = ⟨none, some ⟨2024, 3, 15⟩, some "TESCO", -(47/2), none, none, none, none⟩ :=
  ⟨(import_amount_amended ⟨some "01/02/2024", some "W", some "7", none⟩ 0 7).1
      (Or.inl rfl)
      (by show some ((1 : Rat) * ((7 : Nat) : Rat)) = some 7; norm_num),
   (import_amount_amended ⟨some "01/02/2024", some "W", none, some "9"⟩ 9 0).2.1
      (Or.inl rfl)
      (by show some ((1 : Rat) * ((9 : Nat) : Rat)) = some 9; norm_num),
   (import_amount_amended ⟨some "", none, none, none⟩ 0 0).2.2.2⟩

/-- A row whose date string is empty: no format matches. -/
def rowBadDate : CsvRow := ⟨some "", some "X", some "5", some ""⟩

/-- A fully valid row. -/
def rowGood : CsvRow := ⟨some "2024-01-02", some "OK", none, some "7"⟩

/-- Claim C7 counterexample: on the batch of one empty-date row and one
valid row, import_from_csv counts BOTH rows as imported (the bad row is
not rejected and no error list exists, the return value is a bare
count), the bad row is registered with a null date, and the single
commit then fails on the NOT NULL date column, aborting the whole
batch, so the valid row does not persist either, contrary to the
claimed per-row error collection with the rest of the batch kept. -/
theorem import_bad_date_cex :
    (import_from_csv [rowBadDate, rowGood]).1 = 2
    ∧ (importRow rowBadDate).date = none
    ∧ run_import [rowBadDate, rowGood] = .error .notNullViolation :=
  ⟨rfl, rfl, rfl⟩

/-- Claim C7 as amended: import_from_csv returns only the count of
processed rows and the pending transactions; every row is counted, a
row with an unparseable or empty date included (it is created with a
null date, no row error is recorded and no error list or row number is
returned); and whenever any row of the batch has a null date the final
single commit fails, so the whole batch, valid rows included, is
aborted rather than partially kept. -/
theorem import_batch_amended (rows : List CsvRow) :
    (import_from_csv rows).1 = rows.length
    ∧ (import_from_csv rows).2 = rows.map importRow
    ∧ (∀ r ∈ rows, (importRow r).date = none
        → run_import rows = .error .notNullViolation) := by
  refine ⟨rfl, rfl, ?_⟩
  intro r hr hdate
  have hany : (rows.map importRow).any
      (fun tx => tx.date.isNone || tx.description.isNone) = true := by
    rw [List.any_eq_true]
    refine ⟨importRow r, List.mem_map_of_mem importRow hr, ?_⟩
    rw [hdate]
    rfl
  unfold run_import commitImport
  rw [show (import_from_csv rows).2 = rows.map importRow from rfl, if_pos hany]

theorem import_batch_amended_witness :
    (import_from_csv [rowBadDate, rowGood]).1 = [rowBadDate, rowGood].length
    ∧ (import_from_csv [rowBadDate, rowGood]).2 = [rowBadDate, rowGood].map importRow
    ∧ run_import [rowBadDate, rowGood] = .error .notNullViolation :=
  ⟨(import_batch_amended [rowBadDate, rowGood]).1,
   (import_batch_amended [rowBadDate, rowGood]).2.1,
   (import_batch_amended [rowBadDate, rowGood]).2.2 rowBadDate (by simp) rfl⟩

/-- Exact sum of a list of raw fractions. -/
def sumF (l : List Fq) : Fq := l.foldl Fq.add ⟨0, 1⟩

/-- The value Account.get_live_balance actually returns (app.py line
174): float(opening_balance) + float(sum of transaction amounts), in
binary64 arithmetic.  The aggregate under the float call is taken to be
the exact decimal sum, which is the reading most favourable to the
claim; the real path can only round more. -/
def get_live_balance_py (opening : Fq) (amounts : List Fq) : Fq :=
  fladdF (roundDoubleF opening) (roundDoubleF (sumF amounts))

/-- Account for the float-drift evidence: opening balance 100.10. -/
def AC1 : Account := ⟨1, 1, "Main", "current", 1001/10, 1001/10⟩

/-- One credit of 100.20 on that account. -/
def txC1 : Transaction :=
  ⟨none, some ⟨2024, 1, 2⟩, some "credit", 1002/10, none, some 1, none, none⟩

/-- Store for the float-drift evidence. -/
def stC1 : BankState := ⟨[1], [AC1], [txC1], []⟩

/-- Claim C1: the exact-decimal reading of get_live_balance does return
opening balance plus the transaction sum (here 100.10 + 100.20 =
200.30, a sum above 10,000 cents), but the float coercion the source
applies (float(opening) + float(sum)) returns the binary64 value of
that expression, which is a dyadic rational and therefore NOT exactly
200.30: the code drifts where the claim promises exactness, a slip
against the spec's own exact-arithmetic contract. -/
theorem live_balance_float_drift :
    get_live_balance stC1 AC1 = 2003/10
    ∧ ¬ Fq.eqv (get_live_balance_py ⟨1001, 10⟩ [⟨1002, 10⟩]) ⟨2003, 10⟩ := by
  constructor
  · unfold get_live_balance sumAmounts stC1 AC1 txC1
    norm_num [List.filter]
  · decide

end Bank
